import Mathlib

/-!
Shallow embedding of the revenue-qualification analysis implemented in
`src/excel-generator.js` (function `generateExcelReport`, Revenue Analysis
worksheet, lines 172-306).  Revenue amounts and percentages are modelled as
exact rationals; JavaScript `NaN` is modelled as `Option.none`; the worksheet
is modelled as a 1-indexed list of rows, each row a 1-indexed list of cell
values, mirroring the `addRow` / `getRow` / `getCell` calls of the source.
-/

/-- A value found under a quarter key of one of the two revenue maps, as seen
by JavaScript: the key can be absent (`undefined`), hold the empty string,
hold a truthy value that `parseFloat` cannot parse (result `NaN`), or hold a
number or numeric string that `parseFloat` parses to the given rational. -/
inductive Entry
  | missing : Entry
  | emptyStr : Entry
  | badStr : Entry
  | numStr : ℚ → Entry
deriving DecidableEq

/-- Model of `parseFloat(x)` applied to an entry; `none` models `NaN`. -/
def parseFloatE : Entry → Option ℚ
  | .missing => none
  | .emptyStr => none
  | .badStr => none
  | .numStr v => some v

/-- Model of `parseFloat(x) || 0` (excel-generator.js lines 205-206 and 285-286):
`NaN` is falsy, so an unparsable entry collapses to `0`. -/
def revenueOf (e : Entry) : ℚ := (parseFloatE e).getD 0

/-- Model of `parseFloat(x || 0)` (excel-generator.js line 288): the `|| 0` fallback
fires only on falsy values (`undefined`, the empty string), so a truthy
unparsable string reaches `parseFloat` and produces `NaN` (`none`). -/
def entryOrZero : Entry → Option ℚ
  | .missing => some 0
  | .emptyStr => some 0
  | .badStr => none
  | .numStr v => some v

/-- Line 288: `parseFloat(gs2019[q] || 0) - parseFloat(gs2021[q] || 0)`,
with `NaN` propagating through the subtraction. -/
def changePersist (e19 e21 : Entry) : Option ℚ :=
  match entryOrZero e19, entryOrZero e21 with
  | some a, some b => some (a - b)
  | _, _ => none

/-- Integer number of hundredths of `|x|`, rounding half away from zero;
this is the rounding `Number.prototype.toFixed(2)` performs on the
magnitude of its receiver. -/
def hundredths (x : ℚ) : ℤ := ⌊|x| * 100 + 1 / 2⌋

/-- Value of `x` rounded to 2 decimal places, ties away from zero: the numeric value
displayed by `toFixed(2)`. -/
def round2 (x : ℚ) : ℚ :=
  (if x < 0 then -(hundredths x : ℚ) else (hundredths x : ℚ)) / 100

/-- Decimal rendering of `m` hundredths with exactly two fraction digits,
prefixed with a minus sign when `neg` is set. -/
def fixedString (neg : Bool) (m : ℕ) : String :=
  (if neg then "-" else "")
    ++ Nat.repr (m / 100) ++ "."
    ++ (if m % 100 < 10 then "0" ++ Nat.repr (m % 100) else Nat.repr (m % 100))

/-- Model of `x.toFixed(2)`: decimal string with exactly two fraction digits. -/
def toFixed2 (x : ℚ) : String := fixedString (decide (x < 0)) (hundredths x).toNat

/-- A spreadsheet cell value: `null` for a cell never assigned (reading it
gives `undefined`/`null` in ExcelJS), or a string or numeric content. -/
inductive CellVal
  | null : CellVal
  | str : String → CellVal
  | num : ℚ → CellVal
deriving DecidableEq

/-- Strict-equality test of lines 246 and 290, comparing a cell value with
the string Yes: false on `null` and on numbers. -/
def cellIsYes : CellVal → Bool
  | .str s => s == "Yes"
  | _ => false

/-- Numeric value of a decimal digit character. -/
def digitVal (c : Char) : ℕ := c.toNat - 48

/-- Value of a digit string read left to right. -/
def digitsToNat (ds : List Char) : ℕ := ds.foldl (fun a c => a * 10 + digitVal c) 0

/-- Decimal-literal scan underlying `parseFloat`: optional sign, integer
digits, optional fraction digits; trailing garbage ignored; `none` when no
digit is found.  Returns (negative sign seen, integer digits, fraction
digits). -/
def parseDecimal (cs : List Char) : Option (Bool × List Char × List Char) :=
  let sr : Bool × List Char :=
    match cs with
    | '-' :: t => (true, t)
    | '+' :: t => (false, t)
    | _ => (false, cs)
  let ip := sr.2.takeWhile Char.isDigit
  let rest := sr.2.dropWhile Char.isDigit
  match rest with
  | '.' :: t =>
    let fp := t.takeWhile Char.isDigit
    if ip.isEmpty && fp.isEmpty then none else some (sr.1, ip, fp)
  | _ => if ip.isEmpty then none else some (sr.1, ip, [])

/-- Model of `parseFloat` on a character list; `none` models `NaN`.  (The exponent
forms of full `parseFloat` never arise here: the only strings parsed back
are `toFixed(2)` outputs and the empty string.) -/
def parseFloatChars (cs : List Char) : Option ℚ :=
  (parseDecimal cs).map fun t =>
    (if t.1 then -1 else 1)
      * ((digitsToNat t.2.1 : ℚ) + (digitsToNat t.2.2 : ℚ) / (10 : ℚ) ^ t.2.2.length)

/-- Model of `parseFloat(s)`; `none` models `NaN`. -/
def parseFloatS (s : String) : Option ℚ := parseFloatChars s.data

/-- Removal of the first occurrence of a percent sign, as done by the
JavaScript replace method with a string pattern (first match only). -/
def removeFirstPercent : List Char → List Char
  | [] => []
  | c :: cs => if c == '%' then cs else c :: removeFirstPercent cs

/-- Model of line 280: the percent sign is removed from the cell text
before re-parsing. -/
def stripPercent (s : String) : String := ⟨removeFirstPercent s.data⟩

/-- One revenue map: the three quarter keys `q1`, `q2`, `q3`.  Keys other
than these are never read by the analysis, and access is by key, so key
order in the underlying JSON object is irrelevant by construction. -/
structure SalesMap where
  q1 : Entry
  q2 : Entry
  q3 : Entry
deriving DecidableEq

/-- Entry of quarter index `i` (0-based) in a map; the analysis only ever
uses indices 0, 1, 2. -/
def SalesMap.get (m : SalesMap) : ℕ → Entry
  | 0 => m.q1
  | 1 => m.q2
  | 2 => m.q3
  | _ => .missing

/-- The two revenue maps extracted at lines 200-201:
`requestedInfo.gross_sales_2019` and `requestedInfo.gross_sales_2021`. -/
structure Input where
  gs2019 : SalesMap
  gs2021 : SalesMap
deriving DecidableEq

/-- Label `Quarter N` built at lines 219 and 283 from the key `qN`. -/
def quarterLabel (i : ℕ) : String := "Quarter " ++ Nat.repr (i + 1)

/-- Lines 208-216: the per-quarter computation on the two parsed revenues,
returning (change, percentDecrease, qualifies text).  When the 2019 revenue
is not positive all three keep their initial values `0`, `0`, `No`. -/
def rowCompute (revenue2019 revenue2021 : ℚ) : ℚ × ℚ × String :=
  if revenue2019 > 0 then
    let change := revenue2019 - revenue2021
    let percentDecrease := change / revenue2019 * 100
    (change, percentDecrease, if percentDecrease ≥ 50 then "Yes" else "No")
  else
    (0, 0, "No")

/-- The data row appended for one quarter (lines 218-225): label, the two
parsed revenues, the change, `percentDecrease.toFixed(2)` with a percent
sign appended, and the qualifies text. -/
def dataRow (label : String) (e19 e21 : Entry) : List CellVal :=
  let revenue2019 := revenueOf e19
  let revenue2021 := revenueOf e21
  let c := rowCompute revenue2019 revenue2021
  [.str label, .num revenue2019, .num revenue2021, .num c.1,
   .str (toFixed2 c.2.1 ++ "%"), .str c.2.2]

/-- A row whose first cell holds the given text and whose other five cells
hold the empty string, as appended by `addRow` with five empty strings. -/
def textRow (s : String) : List CellVal :=
  [.str s, .str "", .str "", .str "", .str "", .str ""]

/-- Row 1 of the Revenue Analysis sheet: the column headers (lines 174-181). -/
def headerRow : List CellVal :=
  [.str "Quarter", .str "2019 Revenue", .str "2021 Revenue",
   .str "Revenue Change", .str "Percent Decrease", .str "Qualifies (>50% Decrease)"]

/-- The sheet right after the three data rows are appended (end of line 235):
row 1 headers, row 2 title, rows 3-5 description, row 6 empty, rows 7-9 the
three quarter data rows. -/
def sheetAfterData (inp : Input) : List (List CellVal) :=
  [headerRow,
   textRow "Revenue Analysis for Qualification",
   textRow "Comparing 2019 vs 2021 quarterly revenue to determine qualification based on revenue reduction",
   textRow "Formula: (2019 Revenue - 2021 Revenue) / 2019 Revenue",
   textRow "A quarter qualifies if the reduction is more than 50%",
   textRow "",
   dataRow (quarterLabel 0) inp.gs2019.q1 inp.gs2021.q1,
   dataRow (quarterLabel 1) inp.gs2019.q2 inp.gs2021.q2,
   dataRow (quarterLabel 2) inp.gs2019.q3 inp.gs2021.q3]

/-- Model of `sheet.getRow(r)` with 1-based `r`; a row beyond the sheet has no cells. -/
def getRow (sheet : List (List CellVal)) (r : ℕ) : List CellVal :=
  sheet.getD (r - 1) []

/-- Model of `row.getCell(c).value` with 1-based `c`. -/
def getCellVal (row : List CellVal) (c : ℕ) : CellVal :=
  row.getD (c - 1) .null

/-- The membership test of lines 244-248 for 0-based quarter index `i`: it
reads row `i + 8` of the sheet as it stands after line 235. -/
def qualCheck (inp : Input) (i : ℕ) : Bool :=
  cellIsYes (getCellVal (getRow (sheetAfterData inp) (i + 8)) 6)

/-- Lines 243-249: the derived qualifying-quarter label list. -/
def qualifyingQuarters (inp : Input) : List String :=
  (List.range 3).filterMap fun i =>
    if qualCheck inp i then some (quarterLabel i) else none

/-- The closing summary line text (lines 254-265). -/
def summaryText (inp : Input) : String :=
  if (qualifyingQuarters inp).length > 0 then
    "Client qualifies based on revenue reduction for: "
      ++ String.intercalate ", " (qualifyingQuarters inp)
  else
    "Client does not qualify based on revenue reduction alone"

/-- The sheet as it stands when `quarterAnalysis` runs (after line 265):
rows 1-9 as before.  The getRow(10) call of the membership loop (line 245,
index 2) has already registered an empty, cell-less row 10 — in ExcelJS
`getRow` creates and keeps the row it returns — so the three addRow calls of
lines 251-265 land at rows 11-13, and every cell of row 10 reads back null. -/
def sheetFinal (inp : Input) : List (List CellVal) :=
  sheetAfterData inp ++ [[], textRow "", textRow "Summary:", textRow (summaryText inp)]

/-- One persisted per-quarter record (lines 282-291). -/
structure QuarterResult where
  quarter : String
  revenue2019 : ℚ
  revenue2021 : ℚ
  change : Option ℚ
  percentDecrease : Option ℚ
  qualifies : Bool
deriving DecidableEq

/-- Lines 277-291 for one 0-based quarter index `i`: the record is built from
row `i + 8` of the finished sheet.  `.error` marks the one place the source
could throw: `percentDecreaseText.replace(...)` called on a value that is not
a string. -/
def quarterResult (inp : Input) (i : ℕ) : Except String QuarterResult :=
  let row := getRow (sheetFinal inp) (i + 8)
  match getCellVal row 5 with
  | .null => .error "TypeError: cannot read replace of undefined"
  | .num _ => .error "TypeError: replace is not a function"
  | .str s =>
    .ok { quarter := quarterLabel i
          revenue2019 := revenueOf (inp.gs2019.get i)
          revenue2021 := revenueOf (inp.gs2021.get i)
          change := changePersist (inp.gs2019.get i) (inp.gs2021.get i)
          percentDecrease := parseFloatS (stripPercent s)
          qualifies := cellIsYes (getCellVal row 6) }

/-- Model of the quarters map of line 277; a throw in any iteration aborts the
whole computation. -/
def quarterAnalysis (inp : Input) : Except String (List QuarterResult) :=
  (List.range 3).mapM (quarterResult inp)

/-- Shape of the `qualificationData` object returned at lines 302-305. -/
structure QualificationSummary where
  qualifyingQuarters : List String
  quarterAnalysis : List QuarterResult
deriving DecidableEq

/-- The full analysis: qualifying-quarter list plus per-quarter records. -/
def qualificationData (inp : Input) : Except String QualificationSummary :=
  (quarterAnalysis inp).map fun rs => ⟨qualifyingQuarters inp, rs⟩

/-- Modelled from the spec: the qualifying-quarter list as the
order-preserving filter of the per-quarter verdicts, quarter `i` contributing
its own label exactly when its own row computation says `Yes`. -/
def qualifyingQuartersSpec (inp : Input) : List String :=
  (List.range 3).filterMap fun i =>
    if (rowCompute (revenueOf (inp.gs2019.get i)) (revenueOf (inp.gs2021.get i))).2.2 == "Yes"
    then some (quarterLabel i) else none

/-! ### Structural reduction lemmas -/

lemma quarterLabel_zero : quarterLabel 0 = "Quarter 1" := rfl

lemma quarterLabel_one : quarterLabel 1 = "Quarter 2" := rfl

lemma quarterLabel_two : quarterLabel 2 = "Quarter 3" := rfl

lemma rowSeven (inp : Input) :
    getRow (sheetFinal inp) 7 = dataRow (quarterLabel 0) inp.gs2019.q1 inp.gs2021.q1 := rfl

lemma qualCheck_zero (inp : Input) :
    qualCheck inp 0
      = ((rowCompute (revenueOf inp.gs2019.q2) (revenueOf inp.gs2021.q2)).2.2 == "Yes") := rfl

lemma qualCheck_one (inp : Input) :
    qualCheck inp 1
      = ((rowCompute (revenueOf inp.gs2019.q3) (revenueOf inp.gs2021.q3)).2.2 == "Yes") := rfl

lemma qualCheck_two (inp : Input) : qualCheck inp 2 = false := rfl

lemma qualifyingQuarters_eq (inp : Input) :
    qualifyingQuarters inp
      = (if qualCheck inp 0 then ["Quarter 1"] else [])
        ++ (if qualCheck inp 1 then ["Quarter 2"] else []) := by
  unfold qualifyingQuarters
  cases h0 : qualCheck inp 0 <;> cases h1 : qualCheck inp 1 <;>
    simp [List.range_succ, h0, h1, qualCheck_two, quarterLabel_zero, quarterLabel_one]

lemma quarterResult_zero (inp : Input) :
    quarterResult inp 0 = .ok
      { quarter := "Quarter 1"
        revenue2019 := revenueOf inp.gs2019.q1
        revenue2021 := revenueOf inp.gs2021.q1
        change := changePersist inp.gs2019.q1 inp.gs2021.q1
        percentDecrease := parseFloatS (stripPercent
          (toFixed2 (rowCompute (revenueOf inp.gs2019.q2) (revenueOf inp.gs2021.q2)).2.1 ++ "%"))
        qualifies := ((rowCompute (revenueOf inp.gs2019.q2) (revenueOf inp.gs2021.q2)).2.2 == "Yes") } := rfl

lemma quarterResult_one (inp : Input) :
    quarterResult inp 1 = .ok
      { quarter := "Quarter 2"
        revenue2019 := revenueOf inp.gs2019.q2
        revenue2021 := revenueOf inp.gs2021.q2
        change := changePersist inp.gs2019.q2 inp.gs2021.q2
        percentDecrease := parseFloatS (stripPercent
          (toFixed2 (rowCompute (revenueOf inp.gs2019.q3) (revenueOf inp.gs2021.q3)).2.1 ++ "%"))
        qualifies := ((rowCompute (revenueOf inp.gs2019.q3) (revenueOf inp.gs2021.q3)).2.2 == "Yes") } := rfl

lemma quarterResult_two (inp : Input) :
    quarterResult inp 2 = .error "TypeError: cannot read replace of undefined" := rfl

/-! ### Evaluation lemmas -/

lemma rowCompute_yes (b c : ℚ) (hb : 0 < b) (h50 : 50 ≤ (b - c) / b * 100) :
    rowCompute b c = (b - c, (b - c) / b * 100, "Yes") := by
  simp [rowCompute, hb, h50]

lemma rowCompute_no (b c : ℚ) (hb : 0 < b) (h50 : ¬ 50 ≤ (b - c) / b * 100) :
    rowCompute b c = (b - c, (b - c) / b * 100, "No") := by
  simp [rowCompute, hb, h50]

lemma rowCompute_nonpos (b c : ℚ) (hb : ¬ 0 < b) :
    rowCompute b c = (0, 0, "No") := by
  simp [rowCompute, hb]

lemma toFixed2_of (x : ℚ) (m : ℕ) (h1 : ¬ x < 0) (h2 : hundredths x = (m : ℤ)) :
    toFixed2 x = fixedString false m := by
  simp [toFixed2, h1, h2]

lemma toFixed2_zero : toFixed2 0 = "0.00" := by
  rw [toFixed2_of 0 0 (by norm_num) (by norm_num [hundredths])]
  rfl

lemma toFixed2_twenty : toFixed2 20 = "20.00" := by
  rw [toFixed2_of 20 2000 (by norm_num) (by norm_num [hundredths])]
  rfl

lemma toFixed2_fifty : toFixed2 50 = "50.00" := by
  rw [toFixed2_of 50 5000 (by norm_num) (by norm_num [hundredths])]
  rfl

lemma toFixed2_hundred : toFixed2 100 = "100.00" := by
  rw [toFixed2_of 100 10000 (by norm_num) (by norm_num [hundredths])]
  rfl

lemma parseFloatS_of (s : String) (ip fp : List Char) (v : ℚ)
    (h : parseDecimal s.data = some (false, ip, fp))
    (hv : (digitsToNat ip : ℚ) + (digitsToNat fp : ℚ) / (10 : ℚ) ^ fp.length = v) :
    parseFloatS s = some v := by
  simp [parseFloatS, parseFloatChars, h, hv]

lemma parseFloatS_zero : parseFloatS "0.00" = some 0 := by
  refine parseFloatS_of _ ['0'] ['0', '0'] 0 rfl ?_
  rw [show digitsToNat ['0'] = 0 from rfl, show digitsToNat ['0', '0'] = 0 from rfl]
  norm_num

lemma parseFloatS_twenty : parseFloatS "20.00" = some 20 := by
  refine parseFloatS_of _ ['2', '0'] ['0', '0'] 20 rfl ?_
  rw [show digitsToNat ['2', '0'] = 20 from rfl, show digitsToNat ['0', '0'] = 0 from rfl]
  norm_num

lemma parseFloatS_hundred : parseFloatS "100.00" = some 100 := by
  refine parseFloatS_of _ ['1', '0', '0'] ['0', '0'] 100 rfl ?_
  rw [show digitsToNat ['1', '0', '0'] = 100 from rfl, show digitsToNat ['0', '0'] = 0 from rfl]
  norm_num

lemma stripPercent_zero : stripPercent ("0.00" ++ "%") = "0.00" := rfl

lemma stripPercent_twenty : stripPercent ("20.00" ++ "%") = "20.00" := rfl

lemma stripPercent_hundred : stripPercent ("100.00" ++ "%") = "100.00" := rfl

/-! ### Claims -/

/-- C7 failing case: the claim says the analysis never signals an error, but
for every input, including two empty maps, the computation of lines 277-292
throws: iteration 2 reads row 10, whose cell 5 is null (the addRow of line
251 landed at row 11), and line 280 calls replace on it — so no
QualificationSummary is ever produced. -/
theorem C7_always_throws (inp : Input) :
    qualificationData inp = Except.error "TypeError: cannot read replace of undefined" := rfl

/-- C8: for every quarter whose parsed baseline revenue is zero or negative
and for every comparison entry, the per-quarter computation of lines 208-216
emits percentDecrease 0 and the verdict No, independent of the comparison. -/
theorem C8_nonpos_baseline (e19 e21 : Entry) (h : revenueOf e19 ≤ 0) :
    (rowCompute (revenueOf e19) (revenueOf e21)).2.1 = 0
      ∧ (rowCompute (revenueOf e19) (revenueOf e21)).2.2 = "No" := by
  rw [rowCompute_nonpos _ _ (not_lt.mpr h)]
  exact ⟨rfl, rfl⟩

/-- Witness for C8 at baseline entry -3 and comparison entry 7. -/
theorem C8_nonpos_baseline_witness :
    revenueOf (Entry.numStr (-3)) ≤ 0
      ∧ (rowCompute (revenueOf (Entry.numStr (-3))) (revenueOf (Entry.numStr 7))).2.1 = 0
      ∧ (rowCompute (revenueOf (Entry.numStr (-3))) (revenueOf (Entry.numStr 7))).2.2 = "No" := by
  have h : revenueOf (Entry.numStr (-3)) ≤ 0 := by norm_num [revenueOf, parseFloatE]
  exact ⟨h, C8_nonpos_baseline _ _ h⟩

/-- C9 failing case: the spreadsheet does get exactly three data rows
labelled Quarter 1, 2, 3 in fixed order for every input, but the claimed
3-entry per-quarter result list never exists: the map of lines 277-292
throws at iteration 2 (replace on the null cell 5 of row 10), so no result
list is produced at all, even for two empty maps. -/
theorem C9_no_result_list (inp : Input) :
    getCellVal (getRow (sheetAfterData inp) 7) 1 = CellVal.str "Quarter 1"
      ∧ getCellVal (getRow (sheetAfterData inp) 8) 1 = CellVal.str "Quarter 2"
      ∧ getCellVal (getRow (sheetAfterData inp) 9) 1 = CellVal.str "Quarter 3"
      ∧ quarterAnalysis inp = Except.error "TypeError: cannot read replace of undefined" :=
  ⟨rfl, rfl, rfl, rfl⟩

/-- C10: for every input the derived qualifying-quarter list never contains
the label Quarter 3: the loop of lines 243-249 reads rows 8-10 while the
data rows sit at rows 7-9, and row 10 holds no Yes cell at that point. -/
theorem C10_no_quarter3 (inp : Input) : "Quarter 3" ∉ qualifyingQuarters inp := by
  rw [qualifyingQuarters_eq]
  cases qualCheck inp 0 <;> cases qualCheck inp 1 <;> simp

lemma dataRow_cell4 (l : String) (e19 e21 : Entry) :
    getCellVal (dataRow l e19 e21) 4
      = CellVal.num (rowCompute (revenueOf e19) (revenueOf e21)).1 := rfl

lemma dataRow_cell5 (l : String) (e19 e21 : Entry) :
    getCellVal (dataRow l e19 e21) 5
      = CellVal.str (toFixed2 (rowCompute (revenueOf e19) (revenueOf e21)).2.1 ++ "%") := rfl

lemma dataRow_cell6 (l : String) (e19 e21 : Entry) :
    getCellVal (dataRow l e19 e21) 6
      = CellVal.str (rowCompute (revenueOf e19) (revenueOf e21)).2.2 := rfl

/-- Input exhibiting the C1 counterexample: 2019 q1 revenue 100000 against
2021 q1 revenue 50001, a raw decrease of 49.999 percent. -/
def inpC1 : Input :=
  ⟨⟨.numStr 100000, .missing, .missing⟩, ⟨.numStr 50001, .missing, .missing⟩⟩

/-- C1 counterexample: with baseline 100000 and comparison 50001 the percent
decrease rounded to 2 decimals is 50.00, at least the threshold, yet the
emitted verdict cell of Quarter 1 says No — so the verdict is not the
post-rounding comparison the claim states. -/
theorem C1_counterexample :
    revenueOf inpC1.gs2019.q1 = 100000 ∧ revenueOf inpC1.gs2021.q1 = 50001
      ∧ 50 ≤ round2 ((100000 - 50001) / 100000 * 100 : ℚ)
      ∧ getCellVal (getRow (sheetFinal inpC1) 7) 6 = CellVal.str "No" := by
  refine ⟨rfl, rfl, ?_, ?_⟩
  · have hx : ((100000 - 50001) / 100000 * 100 : ℚ) = 49999 / 1000 := by norm_num
    rw [hx, round2, if_neg (by norm_num : ¬ (49999 / 1000 : ℚ) < 0), hundredths,
      show |(49999 / 1000 : ℚ)| = 49999 / 1000 from by norm_num]
    norm_num
  · rw [rowSeven, dataRow_cell6]
    have h19 : revenueOf inpC1.gs2019.q1 = 100000 := rfl
    have h21 : revenueOf inpC1.gs2021.q1 = 50001 := rfl
    rw [h19, h21, rowCompute_no 100000 50001 (by norm_num) (by norm_num)]

/-- C1 amended: for baseline b > 0 the verdict is Yes exactly when the raw,
unrounded percent decrease (b - c) / b * 100 is at least 50; the threshold
is applied before any rounding (line 215), so a ratio that merely rounds to
50.00 does not qualify. -/
theorem C1_raw_threshold (b c : ℚ) (hb : 0 < b) :
    (rowCompute b c).2.2 = "Yes" ↔ 50 ≤ (b - c) / b * 100 := by
  by_cases h50 : 50 ≤ (b - c) / b * 100
  · rw [rowCompute_yes b c hb h50]
    simpa using h50
  · rw [rowCompute_no b c hb h50]
    simpa using h50

/-- Witness for C1 amended at baseline 100 and comparison 0. -/
theorem C1_raw_threshold_witness :
    (0 : ℚ) < 100
      ∧ ((rowCompute 100 0).2.2 = "Yes" ↔ 50 ≤ ((100 : ℚ) - 0) / 100 * 100) :=
  ⟨by norm_num, C1_raw_threshold 100 0 (by norm_num)⟩

/-- Input exhibiting the C5 counterexample: baseline 0, comparison 500. -/
def inpC5 : Input :=
  ⟨⟨.numStr 0, .missing, .missing⟩, ⟨.numStr 500, .missing, .missing⟩⟩

/-- C5 counterexample: with baseline 0 and comparison 500 the spreadsheet
change cell of Quarter 1 holds 0, not 0 - 500 = -500 as the claim requires
for both outputs. -/
theorem C5_counterexample :
    getCellVal (getRow (sheetFinal inpC5) 7) 4 = CellVal.num 0
      ∧ CellVal.num 0 ≠ CellVal.num ((0 : ℚ) - 500) := by
  constructor
  · rw [rowSeven, dataRow_cell4]
    have h19 : revenueOf inpC5.gs2019.q1 = 0 := rfl
    have h21 : revenueOf inpC5.gs2021.q1 = 500 := rfl
    rw [h19, h21, rowCompute_nonpos 0 500 (by norm_num)]
  · simp only [ne_eq, CellVal.num.injEq]
    norm_num

/-- C5 amended: the persisted change of line 288 is always
baseline - comparison for numeric entries (negative when revenue grew), but
the spreadsheet change cell of lines 208-216 holds baseline - comparison
only when the baseline is positive and stays 0 otherwise. -/
theorem C5_change_semantics (b c : ℚ) :
    changePersist (.numStr b) (.numStr c) = some (b - c)
      ∧ (rowCompute b c).1 = (if 0 < b then b - c else 0) := by
  refine ⟨rfl, ?_⟩
  by_cases hb : 0 < b
  · rw [if_pos hb]
    by_cases h50 : 50 ≤ (b - c) / b * 100
    · rw [rowCompute_yes b c hb h50]
    · rw [rowCompute_no b c hb h50]
  · rw [if_neg hb, rowCompute_nonpos b c hb]

/-- Inputs for C2: identical q1 figures, differing only in the 2021 q2
revenue (0 versus 100). -/
def inpC2A : Input :=
  ⟨⟨.numStr 100, .numStr 100, .missing⟩, ⟨.numStr 100, .numStr 0, .missing⟩⟩

/-- Second input for C2; see inpC2A. -/
def inpC2B : Input :=
  ⟨⟨.numStr 100, .numStr 100, .missing⟩, ⟨.numStr 100, .numStr 100, .missing⟩⟩

/-- C2 failing case: the two inputs agree on all revenue figures of
Quarter 1, yet the qualifies verdict of the persisted Quarter 1 record flips
from true to false when only the 2021 q2 revenue changes: lines 277-292 read
row index + 8, which is the data row of the next quarter. -/
theorem C2_cross_quarter_dependence :
    inpC2A.gs2019.q1 = inpC2B.gs2019.q1 ∧ inpC2A.gs2021.q1 = inpC2B.gs2021.q1
      ∧ (∃ r, quarterResult inpC2A 0 = Except.ok r ∧ r.qualifies = true)
      ∧ (∃ r, quarterResult inpC2B 0 = Except.ok r ∧ r.qualifies = false) := by
  refine ⟨rfl, rfl, ⟨_, quarterResult_zero inpC2A, ?_⟩, ⟨_, quarterResult_zero inpC2B, ?_⟩⟩
  · show ((rowCompute (revenueOf inpC2A.gs2019.q2) (revenueOf inpC2A.gs2021.q2)).2.2 == "Yes")
      = true
    rw [show revenueOf inpC2A.gs2019.q2 = 100 from rfl,
      show revenueOf inpC2A.gs2021.q2 = 0 from rfl,
      rowCompute_yes 100 0 (by norm_num) (by norm_num)]
    rfl
  · show ((rowCompute (revenueOf inpC2B.gs2019.q2) (revenueOf inpC2B.gs2021.q2)).2.2 == "Yes")
      = false
    rw [show revenueOf inpC2B.gs2019.q2 = 100 from rfl,
      show revenueOf inpC2B.gs2021.q2 = 100 from rfl,
      rowCompute_no 100 100 (by norm_num) (by norm_num)]
    rfl

/-- Input for C4: q1 drops 100 to 50 (exactly 50 percent), q2 drops 100 to
80 (20 percent). -/
def inpC4 : Input :=
  ⟨⟨.numStr 100, .numStr 100, .missing⟩, ⟨.numStr 50, .numStr 80, .missing⟩⟩

/-- C4 failing case: the displayed percent string of Quarter 1 is the
correctly rounded 50.00 percent, but the record built by iteration 0 of
lines 277-292 carries percentDecrease 20 — the value parsed back from the
row of Quarter 2 — instead of 50, and no Quarter 3 value exists at all:
iteration 2 throws a TypeError reading the null cell 5 of row 10. -/
theorem C4_percent_mismatch :
    getCellVal (getRow (sheetFinal inpC4) 7) 5 = CellVal.str "50.00%"
      ∧ round2 ((100 - 50) / 100 * 100 : ℚ) = 50
      ∧ (∃ r, quarterResult inpC4 0 = Except.ok r ∧ r.percentDecrease = some 20)
      ∧ quarterResult inpC4 2 = Except.error "TypeError: cannot read replace of undefined" := by
  have hq1 : rowCompute (revenueOf inpC4.gs2019.q1) (revenueOf inpC4.gs2021.q1)
      = (50, 50, "Yes") := by
    rw [show revenueOf inpC4.gs2019.q1 = 100 from rfl,
      show revenueOf inpC4.gs2021.q1 = 50 from rfl,
      rowCompute_yes 100 50 (by norm_num) (by norm_num)]
    norm_num [Prod.ext_iff]
  have hq2 : rowCompute (revenueOf inpC4.gs2019.q2) (revenueOf inpC4.gs2021.q2)
      = (20, 20, "No") := by
    rw [show revenueOf inpC4.gs2019.q2 = 100 from rfl,
      show revenueOf inpC4.gs2021.q2 = 80 from rfl,
      rowCompute_no 100 80 (by norm_num) (by norm_num)]
    norm_num [Prod.ext_iff]
  refine ⟨?_, ?_, ⟨_, quarterResult_zero inpC4, ?_⟩, quarterResult_two inpC4⟩
  · rw [rowSeven, dataRow_cell5, hq1,
      show ((50 : ℚ), (50 : ℚ), "Yes").2.1 = 50 from rfl, toFixed2_fifty]
    rfl
  · rw [show ((100 - 50) / 100 * 100 : ℚ) = 50 from by norm_num, round2,
      if_neg (by norm_num : ¬ (50 : ℚ) < 0), hundredths,
      show |(50 : ℚ)| = 50 from by norm_num]
    norm_num
  · show parseFloatS (stripPercent
        (toFixed2 (rowCompute (revenueOf inpC4.gs2019.q2) (revenueOf inpC4.gs2021.q2)).2.1 ++ "%"))
      = some 20
    rw [hq2, show ((20 : ℚ), (20 : ℚ), "No").2.1 = 20 from rfl, toFixed2_twenty,
      stripPercent_twenty, parseFloatS_twenty]

lemma qualifyingQuartersSpec_eq (inp : Input) :
    qualifyingQuartersSpec inp
      = (if (rowCompute (revenueOf (inp.gs2019.get 0)) (revenueOf (inp.gs2021.get 0))).2.2 = "Yes"
          then ["Quarter 1"] else [])
        ++ (if (rowCompute (revenueOf (inp.gs2019.get 1)) (revenueOf (inp.gs2021.get 1))).2.2 = "Yes"
            then ["Quarter 2"] else [])
        ++ (if (rowCompute (revenueOf (inp.gs2019.get 2)) (revenueOf (inp.gs2021.get 2))).2.2 = "Yes"
            then ["Quarter 3"] else []) := by
  unfold qualifyingQuartersSpec
  by_cases h0 : (rowCompute (revenueOf (inp.gs2019.get 0)) (revenueOf (inp.gs2021.get 0))).2.2 = "Yes" <;>
    by_cases h1 : (rowCompute (revenueOf (inp.gs2019.get 1)) (revenueOf (inp.gs2021.get 1))).2.2 = "Yes" <;>
      by_cases h2 : (rowCompute (revenueOf (inp.gs2019.get 2)) (revenueOf (inp.gs2021.get 2))).2.2 = "Yes" <;>
        simp [List.range_succ, h0, h1, h2, quarterLabel_zero, quarterLabel_one, quarterLabel_two]

/-- Input for C3: only the third quarter has revenue figures, a 100 to 0
drop that qualifies. -/
def inpC3 : Input :=
  ⟨⟨.missing, .missing, .numStr 100⟩, ⟨.missing, .missing, .numStr 0⟩⟩

/-- C3 failing case: with only Quarter 3 qualifying, the derived list of
lines 243-249 is the shifted ["Quarter 2"], not the order-preserving filter
["Quarter 3"] the claim states. -/
theorem C3_filter_mismatch :
    qualifyingQuarters inpC3 = ["Quarter 2"]
      ∧ qualifyingQuartersSpec inpC3 = ["Quarter 3"]
      ∧ qualifyingQuarters inpC3 ≠ qualifyingQuartersSpec inpC3 := by
  have hz : rowCompute (0 : ℚ) 0 = (0, 0, "No") := rowCompute_nonpos 0 0 (by norm_num)
  have hq3 : rowCompute (100 : ℚ) 0 = (100, 100, "Yes") := by
    rw [rowCompute_yes 100 0 (by norm_num) (by norm_num)]
    norm_num [Prod.ext_iff]
  have h1 : qualifyingQuarters inpC3 = ["Quarter 2"] := by
    rw [qualifyingQuarters_eq, qualCheck_zero, qualCheck_one,
      show revenueOf inpC3.gs2019.q2 = 0 from rfl, show revenueOf inpC3.gs2021.q2 = 0 from rfl,
      show revenueOf inpC3.gs2019.q3 = 100 from rfl, show revenueOf inpC3.gs2021.q3 = 0 from rfl,
      hz, hq3]
    decide
  have h2 : qualifyingQuartersSpec inpC3 = ["Quarter 3"] := by
    rw [qualifyingQuartersSpec_eq,
      show revenueOf (inpC3.gs2019.get 0) = 0 from rfl,
      show revenueOf (inpC3.gs2021.get 0) = 0 from rfl,
      show revenueOf (inpC3.gs2019.get 1) = 0 from rfl,
      show revenueOf (inpC3.gs2021.get 1) = 0 from rfl,
      show revenueOf (inpC3.gs2019.get 2) = 100 from rfl,
      show revenueOf (inpC3.gs2021.get 2) = 0 from rfl,
      hz, hq3]
    decide
  refine ⟨h1, h2, ?_⟩
  rw [h1, h2]
  simp

/-- Inputs for C6: the 2019 q1 entry is a truthy non-numeric string in the
first input and an explicit 0 in the second; everything else is equal. -/
def inpC6A : Input :=
  ⟨⟨.badStr, .missing, .missing⟩, ⟨.numStr 500, .missing, .missing⟩⟩

/-- Second input for C6; see inpC6A. -/
def inpC6B : Input :=
  ⟨⟨.numStr 0, .missing, .missing⟩, ⟨.numStr 500, .missing, .missing⟩⟩

/-- C6 failing case: replacing the unparsable 2019 q1 entry by an explicit 0
changes the Quarter 1 change computed by iteration 0 of lines 277-292 from
NaN to -500 — the parseFloat(x || 0) of line 288 lets NaN through for truthy
non-numeric strings, so the two entries are not treated identically.  (The
enclosing map then throws at iteration 2 on both inputs, so neither run ever
returns a QualificationSummary at all.) -/
theorem C6_nan_change :
    (∃ r, quarterResult inpC6A 0 = Except.ok r ∧ r.change = none)
      ∧ (∃ r, quarterResult inpC6B 0 = Except.ok r ∧ r.change = some ((0 : ℚ) - 500)) :=
  ⟨⟨_, quarterResult_zero inpC6A, rfl⟩, ⟨_, quarterResult_zero inpC6B, rfl⟩⟩
